import Mathlib

/-!
Verification development for the ai-travel-planner workflow core.

The definitions below are a shallow embedding of the Python sources:
  backend/utils/routing_helper.py   (routing predicates)
  backend/nodes/cluster.py          (ClusterNode)
  backend/nodes/manual_cluster_select.py (ManualSelectionNode)
  backend/nodes/eval.py             (EvaluationNode)
  backend/nodes/research.py         (ResearcherNode)
  backend/nodes/initial_grounding.py (InitialGroundingNode)
  backend/nodes/enrich_docs.py      (EnrichDocsNode)
  backend/classes/travel/base_models.py (TravelPreferences)
  backend/graph.py                  (workflow wiring)

Python dicts are embedded as association lists in insertion order; JSON
values parsed by json.loads are embedded as the inductive type JVal;
Python exceptions are embedded as the error side of Except PyError.
-/

namespace TravelPlanner

/-- Runtime JSON-like values as produced by json.loads. Floats do not occur
in any value the verified claims inspect, so numbers are embedded as Int. -/
inductive JVal where
  | null : JVal
  | bool (b : Bool) : JVal
  | num (n : Int) : JVal
  | str (s : String) : JVal
  | arr (xs : List JVal) : JVal
  | obj (fields : List (String × JVal)) : JVal

/-- Python exception classes that the embedded code can raise. -/
inductive PyError where
  | typeError : PyError
  | keyError : PyError
  | attributeError : PyError
  | valueError : PyError
deriving DecidableEq, Repr

/-- Lookup in a Python dict embedded as an association list (dict.get /
subscript on a present key). Returns the first binding of the key. -/
def alookup {α : Type} (k : String) : List (String × α) → Option α
  | [] => none
  | (k₁, v) :: rest => if k = k₁ then some v else alookup k rest

/-- Python substring containment (the expression pat in s for strings). -/
def strContains (s pat : String) : Bool := (s.splitOn pat).length > 1

/-- A record stored in initial_data or documents. Grounding records carry
the originating query; research records carry title and published date.
The score field of the source records is an inert payload for every claim
and is embedded as Int. -/
structure DocRecord where
  url : String
  content : String
  title : Option String := none
  score : Int := 0
  published_date : Option String := none
  query : Option String := none
deriving DecidableEq, Repr

/-- Value of the eval entry of the state at the time routing reads it.
In Python it is either absent / None, a plain dict (what EvaluationNode
returns), or an object carrying a grade attribute (the ReportEvaluation
pydantic model of backend/classes/classes.py, which no node constructs). -/
inductive EvalField where
  | absent : EvalField
  | dict (fields : List (String × JVal)) : EvalField
  | obj (grade : Int) (critical_gaps : List String) : EvalField

/-- Travel styles of backend/classes/travel/types/enums.py. -/
inductive TravelStyle where
  | luxury | budget | adventure | family | business | cultural | relaxation
deriving DecidableEq, Repr

/-- Activity types of backend/classes/travel/types/enums.py. -/
inductive ActivityType where
  | sightseeing | outdoor | cultural | dining | shopping | entertainment | relaxation
deriving DecidableEq, Repr

/-- Validated travel preferences, mirroring TravelPreferences of
backend/classes/travel/base_models.py. Dates are embedded as day ordinals
(only their ordering matters to validation); budgets as rationals. -/
structure TravelPreferences where
  destination : String
  additional_destinations : List String
  start_date : Int
  end_date : Int
  budget_min : Rat
  budget_max : Rat
  travel_style : TravelStyle
  preferred_activities : List ActivityType
  accessibility_requirements : Option String
  dietary_restrictions : List String
  number_of_travelers : Int
  preferred_languages : List String
deriving DecidableEq, Repr

/-- Raw client input for TravelPreferences before pydantic validation:
a field is none when the client payload omits it. Fields with defaults in
the source (additional_destinations, dietary_restrictions,
number_of_travelers, preferred_languages, accessibility_requirements)
take their default when omitted. -/
structure PreferencesInput where
  destination : Option String := none
  additional_destinations : Option (List String) := none
  start_date : Option Int := none
  end_date : Option Int := none
  budget_min : Option Rat := none
  budget_max : Option Rat := none
  travel_style : Option TravelStyle := none
  preferred_activities : Option (List ActivityType) := none
  accessibility_requirements : Option String := none
  dietary_restrictions : Option (List String) := none
  number_of_travelers : Option Int := none
  preferred_languages : Option (List String) := none
deriving DecidableEq, Repr

/-- Pydantic validation of TravelPreferences: required fields must be
present; Field(ge=0) on budget_min and budget_max and Field(ge=1) on
number_of_travelers run first; then the model validator
validate_dates_and_budget of base_models.py checks start_date < end_date
and budget_min ≤ budget_max. -/
def validatePreferences (p : PreferencesInput) : Except String TravelPreferences :=
  match p.destination, p.start_date, p.end_date, p.budget_min, p.budget_max,
        p.travel_style, p.preferred_activities with
  | some dest, some sd, some ed, some bmin, some bmax, some ts, some acts =>
    if bmin < 0 then .error "budget_min must be non-negative"
    else if bmax < 0 then .error "budget_max must be non-negative"
    else if p.number_of_travelers.getD 1 < 1 then
      .error "number_of_travelers must be at least 1"
    else if sd ≥ ed then .error "Start date must be earlier than the end date."
    else if bmin > bmax then .error "Minimum budget must not exceed maximum budget."
    else .ok {
      destination := dest
      additional_destinations := p.additional_destinations.getD []
      start_date := sd
      end_date := ed
      budget_min := bmin
      budget_max := bmax
      travel_style := ts
      preferred_activities := acts
      accessibility_requirements := p.accessibility_requirements
      dietary_restrictions := p.dietary_restrictions.getD []
      number_of_travelers := p.number_of_travelers.getD 1
      preferred_languages := p.preferred_languages.getD ["English"] }
  | _, _, _, _, _, _, _ => .error "missing required field"

/-- Success test for an embedded fallible computation. -/
def exceptOk {ε α : Type} : Except ε α → Bool
  | .ok _ => true
  | .error _ => false

/-- The shared ResearchState of backend/classes/research_state.py, with the
fields the verified claims read. chosen_cluster and documents are Option
to embed an absent key or a None value; document_clusters holds the raw
runtime value the cluster node stored (normally a JSON array of dicts). -/
structure RState where
  preferences : Option TravelPreferences := none
  initial_data : List (String × DocRecord) := []
  documents : Option (List (String × DocRecord)) := none
  document_clusters : JVal := JVal.arr []
  chosen_cluster : Option Int := none
  report : Option String := none
  evalResult : EvalField := EvalField.absent

/-! Routing predicates of backend/utils/routing_helper.py. Each is embedded
with its Python exception behavior: comparison of None with an int raises
TypeError, subscripting a missing key raises KeyError, and attribute
access on None or on a plain dict raises AttributeError. -/

/-- route_based_on_cluster (routing_helper.py lines 12-28):
state.get with a default of None, then a None test. Total. -/
def route_based_on_cluster (s : RState) : Except PyError String :=
  match s.chosen_cluster with
  | some _ => .ok "enrich_docs"
  | none => .ok "manual_cluster_selection"

/-- route_after_manual_selection (routing_helper.py lines 30-46):
evaluates chosen_cluster >= 0, which raises TypeError when
chosen_cluster is None or absent. -/
def route_after_manual_selection (s : RState) : Except PyError String :=
  match s.chosen_cluster with
  | none => .error .typeError
  | some c => if c ≥ 0 then .ok "enrich_docs" else .ok "cluster"

/-- should_continue_research (routing_helper.py lines 48-65):
subscripts state with the documents key, raising KeyError when absent,
then compares the document count with the threshold 2. -/
def should_continue_research (s : RState) : Except PyError String :=
  match s.documents with
  | none => .error .keyError
  | some docs => if docs.length < 2 then .ok "research" else .ok "generate_report"

/-- route_based_on_evaluation (routing_helper.py lines 67-84):
reads evaluation.grade as an attribute, which raises AttributeError when
eval is absent, None, or a plain dict (the only values EvaluationNode
produces). -/
def route_based_on_evaluation (s : RState) : Except PyError String :=
  match s.evalResult with
  | .obj grade _ => if grade = 1 then .ok "research" else .ok "publish"
  | _ => .error .attributeError

/-- Successor computation of the compiled workflow of backend/graph.py
(_setup_workflow, lines 67-104): static edges are fixed successors and
the four conditional edges apply the routing predicates to the state. -/
def nextNode (s : RState) : String → Except PyError String
  | "initial_grounding" => .ok "sub_questions_gen"
  | "sub_questions_gen" => .ok "research"
  | "research" => .ok "cluster"
  | "cluster" => route_based_on_cluster s
  | "manual_cluster_selection" => route_after_manual_selection s
  | "enrich_docs" => should_continue_research s
  | "generate_report" => .ok "eval_report"
  | "eval_report" => route_based_on_evaluation s
  | "publish" => .ok "END"
  | _ => .error .valueError

/-! ClusterNode of backend/nodes/cluster.py. The interesting pure part is
the handling of the model response: the code extracts the first brace-to-
matching-brace substring, parses it with json.loads (so a successful parse
is always a JSON object), validates it with _validate_clusters, and on ANY
failure keeps running; the partial update's document_clusters field is
clusters.get('clusters', []) of whatever the variable clusters holds at
that point. A parsed response is embedded as some of its field list; every
decode failure (no brace, unbalanced braces, json.loads error) as none. -/

/-- Predicate for a string JSON value. -/
def isStrJ : JVal → Bool
  | .str _ => true
  | _ => false

/-- One cluster entry passes _validate_clusters (cluster.py lines 186-207):
it must be a dict (a non-dict makes cluster.get raise AttributeError,
caught by the generic handler, so validation also fails), its category a
string and its urls a list of strings. -/
def validClusterEntry (c : JVal) : Bool :=
  match c with
  | .obj f =>
      (match alookup "category" f with
       | some (.str _) => true
       | _ => false) &&
      (match alookup "urls" f with
       | some (.arr us) => us.all isStrJ
       | _ => false)
  | _ => false

/-- Whole-response validation: the parsed object must carry a clusters key
whose value is a list of valid cluster entries. -/
def clusterValidationOk (fields : List (String × JVal)) : Bool :=
  match alookup "clusters" fields with
  | some (.arr cs) => cs.all validClusterEntry
  | _ => false

/-- The document_clusters value of the partial update returned by
ClusterNode.cluster (cluster.py line 103): clusters.get('clusters', []).
On a decode failure the clusters variable still holds the initial
value with an empty list, but after a successful parse it holds the
parsed object even when validation failed. -/
def clusterDocClustersValue (resp : Option (List (String × JVal))) : JVal :=
  match resp with
  | none => JVal.arr []
  | some fields => (alookup "clusters" fields).getD (JVal.arr [])

/-- Message line for one validated cluster (cluster.py line 89). -/
def clusterSuccessLine (c : JVal) : String :=
  match c with
  | .obj f =>
      (match alookup "category" f with
       | some (.str cat) => "   - " ++ cat ++ ": "
       | _ => "   - ?: ") ++
      (match alookup "urls" f with
       | some (.arr us) => toString us.length ++ " sources\n"
       | _ => "0 sources\n")
  | _ => ""

/-- The message of the partial update returned by ClusterNode.cluster.
The source prefixes its several failure messages with an error marker
(emoji omitted here); they are collapsed to their common prefix since only
their diagnostic character is observable to the claims. -/
def clusterMessage (resp : Option (List (String × JVal))) : String :=
  match resp with
  | none => "Error: Failed to parse clustering results from the model."
  | some fields =>
    if clusterValidationOk fields then
      match alookup "clusters" fields with
      | some (.arr cs) =>
          cs.foldl (fun m c => m ++ clusterSuccessLine c)
            "Organized travel information into categories:\n"
      | _ => "Error: invalid clustering result."
    else "Error: invalid clustering result."

/-- The partial update returned by ClusterNode.run (cluster.py lines
131-148): the document_clusters of the cluster step, and the
chosen_cluster of choose_cluster (lines 120-129), which is the constant 0
regardless of the clusters. -/
structure ClusterRunResult where
  chosen_cluster : Int
  document_clusters : JVal

/-- ClusterNode.run as a function of the parsed model response. -/
def clusterRun (resp : Option (List (String × JVal))) : ClusterRunResult :=
  { chosen_cluster := 0, document_clusters := clusterDocClustersValue resp }

/-- Engine merge of the ClusterNode.run update into the state: the update
carries exactly the chosen_cluster and document_clusters fields and
ResearchState declares no reducer for them, so both are replaced. -/
def applyClusterRun (s : RState) (resp : Option (List (String × JVal))) : RState :=
  { s with chosen_cluster := some (clusterRun resp).chosen_cluster
           document_clusters := (clusterRun resp).document_clusters }

/-! ManualSelectionNode of backend/nodes/manual_cluster_select.py. -/

/-- Outcome of one iteration of the manual-selection reply loop. -/
inductive ManualOutcome where
  | update (chosen_cluster : Int) : ManualOutcome
  | reprompt : ManualOutcome
  | raise (e : PyError) : ManualOutcome
deriving DecidableEq, Repr

/-- Reads a nonempty all-digit character list as a number. -/
def digitsToNat : List Char → Option Nat
  | [] => none
  | cs =>
      cs.foldl
        (fun acc c =>
          match acc with
          | none => none
          | some n => if c.isDigit then some (n * 10 + (c.toNat - 48)) else none)
        (some 0)

/-- Python int(...) applied to the reply text: an optional sign followed by
digits; none embeds the ValueError of an unparseable reply. -/
def pyInt (s : String) : Option Int :=
  match s.data with
  | '-' :: cs => (digitsToNat cs).map (fun n => -(n : Int))
  | '+' :: cs => (digitsToNat cs).map (fun n => (n : Int))
  | cs => (digitsToNat cs).map (fun n => (n : Int))

/-- One iteration of the reply loop of manual_cluster_selection
(manual_cluster_select.py lines 18-40) with an interactive channel
present. A reply parsing to index -1 returns the re-cluster update; a
reply selecting a valid 0-based index reaches the f-string
chosen_cluster.company_name, an attribute access on a dict parsed from
JSON, which raises AttributeError, and only ValueError is caught, so the
exception escapes the node; any other reply re-prompts without returning
(the state is unchanged and the loop continues). -/
def manualSelectionStep (clusters : List JVal) (reply : String) : ManualOutcome :=
  match pyInt reply with
  | none => .reprompt
  | some n =>
    let idx := n - 1
    if idx = -1 then .update (-1)
    else if 0 ≤ idx ∧ idx < (clusters.length : Int) then .raise .attributeError
    else .reprompt

/-- Engine merge of a manual-selection update carrying chosen_cluster. -/
def applyManualUpdate (s : RState) (c : Int) : RState :=
  { s with chosen_cluster := some c }

/-! EvaluationNode of backend/nodes/eval.py. -/

/-- The degraded evaluation dict built on every failure path of
evaluate_itinerary: grade 1 with a synthetic gap. -/
def mkErrEval (msg : String) : List (String × JVal) :=
  [("grade", JVal.num 1), ("critical_gaps", JVal.arr [JVal.str msg])]

/-- Python membership of a string in a JSON list. -/
def strMemJ (s : String) : List JVal → Bool
  | [] => false
  | JVal.str t :: rest => s = t || strMemJ s rest
  | _ :: rest => strMemJ s rest

/-- The eval value of the partial update returned by
EvaluationNode.evaluate_itinerary (eval.py lines 15-120). A falsy report
(absent or empty) short-circuits to a grade-1 dict; a JSON decode failure
of the model response likewise; a parsed object with a grade key is
returned as-is; a parsed object without one yields the grade-1 dict; a
parsed non-object value either fails the membership test (grade-1 dict
via the key-not-found branch) or raises TypeError at the subscript, which
the outer generic handler converts to the grade-1 dict. Every path
returns a plain Python dict. -/
def evaluateItinerary (report : Option String) (resp : Option JVal) :
    List (String × JVal) :=
  if report.getD "" = "" then
    mkErrEval "Error: Itinerary report not found in state."
  else
    match resp with
    | none => mkErrEval "Error parsing JSON response"
    | some (JVal.obj fields) =>
        if (alookup "grade" fields).isSome then fields
        else mkErrEval "Error: grade key not found in evaluation response."
    | some (JVal.str s) =>
        if strContains s "grade" then mkErrEval "Error during evaluation"
        else mkErrEval "Error: grade key not found in evaluation response."
    | some (JVal.arr xs) =>
        if strMemJ "grade" xs then mkErrEval "Error during evaluation"
        else mkErrEval "Error: grade key not found in evaluation response."
    | some _ => mkErrEval "Error during evaluation"

/-- Engine merge of the EvaluationNode update: the eval field is replaced
by the dict the node returned. -/
def applyEvaluate (s : RState) (resp : Option JVal) : RState :=
  { s with evalResult := EvalField.dict (evaluateItinerary s.report resp) }

/-! Deduplicating merge by URL, shared by InitialGroundingNode
(initial_grounding.py lines 55-70), ResearcherNode.tavily_search
(research.py lines 63-75) and ResearcherNode.research (research.py lines
90-102): each checks membership before inserting, so the first write for
a URL wins and insertion order is preserved. -/

/-- One check-before-insert step. -/
def mergeStep {α : Type} (acc : List (String × α)) (r : String × α) :
    List (String × α) :=
  if (alookup r.1 acc).isSome then acc else acc ++ [r]

/-- Merging a sequence of url-keyed results into a mapping. -/
def mergeByUrl {α : Type} (init : List (String × α))
    (results : List (String × α)) : List (String × α) :=
  results.foldl mergeStep init

/-- The documents value of the partial update returned by
ResearcherNode.research (research.py lines 77-110): line 83 sets
state['documents'] to a fresh empty dict unconditionally (despite its
comment), so the update is built from this pass's results alone and any
previously accumulated documents are discarded by the replace-merge. -/
def researchDocuments (results : List (String × DocRecord)) :
    List (String × DocRecord) :=
  mergeByUrl [] results

/-- Engine merge of the ResearcherNode update into the state. -/
def applyResearch (s : RState) (results : List (String × DocRecord)) : RState :=
  { s with documents := some (researchDocuments results) }

/-- The initial_data value built by InitialGroundingNode.initial_search
(initial_grounding.py lines 46-86): also starts from a fresh empty dict
and merges all query results with check-before-insert. -/
def groundInitialData (results : List (String × DocRecord)) :
    List (String × DocRecord) :=
  mergeByUrl [] results

/-- Engine merge of the EnrichDocsNode.curate update (enrich_docs.py lines
19-76): the update's documents field holds only the enriched records of
this pass, and replace-merge substitutes it for the whole mapping. -/
def applyEnrichDocs (s : RState) (enriched : List (String × DocRecord)) : RState :=
  { s with documents := some enriched }

/-! URL collection of EnrichDocsNode._collect_and_validate_urls
(enrich_docs.py lines 78-134) and the extract batching of curate
(lines 50-54). -/

/-- Word character of the regex class backslash-w. -/
def isWordChar (c : Char) : Bool := c.isAlphanum || c = '_'

/-- Host characters of the URL regex. -/
def isHostChar (c : Char) : Bool := isWordChar c || c = '.' || c = '-'

/-- Path characters of the URL regex. -/
def isPathChar (c : Char) : Bool := isWordChar c || c = '.' || c = '/' || c = '-'

/-- Matcher for the tail of the URL regex after the host: end of string,
an optional colon-digits port, then an optional slash-led path. -/
def urlTail (cs : List Char) : Bool :=
  match cs with
  | [] => true
  | ':' :: rest =>
      let after := rest.dropWhile Char.isDigit
      decide (after.length < rest.length) &&
      (match after with
       | [] => true
       | '/' :: p => p.all isPathChar
       | _ => false)
  | '/' :: p => p.all isPathChar
  | _ => false

/-- The URL validation regex of is_valid_url (enrich_docs.py line 93),
anchored at both ends: http, an optional s, colon-slash-slash, one or
more host characters, then the tail. Every character class in the regex
is disjoint from the delimiter that follows it, so this deterministic
maximal-munch matcher is equivalent to the backtracking regex. -/
def isValidUrl (u : String) : Bool :=
  match u.data with
  | 'h' :: 't' :: 't' :: 'p' :: rest =>
    let rest1 := match rest with
      | 's' :: r => r
      | r => r
    match rest1 with
    | ':' :: '/' :: '/' :: hostRest =>
        let after := hostRest.dropWhile isHostChar
        decide (after.length < hostRest.length) && urlTail after
    | _ => false
  | _ => false

/-- process_cluster of _collect_and_validate_urls: cluster.get on a
non-dict raises AttributeError (uncaught in curate, whose try block opens
only after URL collection); a non-list urls value or an empty valid set
skips the cluster; otherwise the first 5 valid string URLs are taken. -/
def processClusterUrls (c : JVal) : Except PyError (List String) :=
  match c with
  | JVal.obj f =>
      match (alookup "urls" f).getD (JVal.arr []) with
      | JVal.arr us =>
          .ok ((us.filterMap fun v =>
            match v with
            | JVal.str s => if isValidUrl s then some s else none
            | _ => none).take 5)
      | _ => .ok []
  | _ => .error .attributeError

/-- The collection loop of _collect_and_validate_urls: clusters are
processed in order and collection stops once at least 20 URLs are
gathered. -/
def collectUrls : List JVal → List String → Except PyError (List String)
  | [], acc => .ok acc
  | c :: cs, acc =>
    match processClusterUrls c with
    | .error e => .error e
    | .ok sel =>
      let acc2 := acc ++ sel
      if 20 ≤ acc2.length then .ok acc2 else collectUrls cs acc2

/-- Order-preserving deduplication, as list(dict.fromkeys(...)). -/
def dedupKeepFirst (l : List String) : List String :=
  l.foldl (fun acc x => if x ∈ acc then acc else acc ++ [x]) []

/-- _collect_and_validate_urls: the collected URLs truncated to 20 and
deduplicated keeping first occurrences. -/
def collectAndValidateUrls (clusters : List JVal) : Except PyError (List String) :=
  match collectUrls clusters [] with
  | .error e => .error e
  | .ok l => .ok (dedupKeepFirst (l.take 20))

/-- The batch slices urls[i : i + 20] of the extraction loop of curate
(enrich_docs.py lines 50-51). -/
def mkBatches : List String → List (List String)
  | [] => []
  | x :: xs => (x :: xs).take 20 :: mkBatches ((x :: xs).drop 20)
termination_by l => l.length
decreasing_by
  simp [List.length_drop]
  omega

/-! Concrete states and inputs used by the claim theorems, their
counterexamples and their witnesses. -/

/-- A state as routing can see it mid-run: chosen_cluster and documents
absent, eval holding the plain dict the Evaluate node stores. -/
def stMissing : RState := { evalResult := EvalField.dict [("grade", JVal.num 2)] }

/-- A state whose routed-on fields are all present and well-typed. -/
def stTyped : RState :=
  { chosen_cluster := some 3, documents := some [], evalResult := EvalField.obj 2 [] }

/-- A state in which the Generate node has stored a report. -/
def stReport : RState := { report := some "Travel Itinerary: Kyoto" }

/-- Three cluster dicts as ClusterNode stores them after a valid parse. -/
def threeClusters : List JVal :=
  [JVal.obj [("category", JVal.str "Accommodations"),
             ("urls", JVal.arr [JVal.str "https://a.example/1"])],
   JVal.obj [("category", JVal.str "Activities & Attractions"),
             ("urls", JVal.arr [JVal.str "https://a.example/2"])],
   JVal.obj [("category", JVal.str "Dining & Food"),
             ("urls", JVal.arr [JVal.str "https://a.example/3"])]]

/-- A state carrying the three clusters above. -/
def stClusters : RState := { document_clusters := JVal.arr threeClusters }

/-- A state before the Cluster node runs. -/
def stPreCluster : RState := { documents := some [] }

/-- A document record seeded before a research pass. -/
def recA : DocRecord := { url := "https://a.example/x", content := "seed" }

/-- A second record with the same URL and different content. -/
def recB : DocRecord := { url := "https://a.example/x", content := "other" }

/-- A state already holding one document. -/
def stWithDoc : RState := { documents := some [("https://a.example/x", recA)] }

/-- A parsed cluster response whose clusters key is present but fails
validation: its category is a number, not a string. -/
def badClusterResp : List (String × JVal) :=
  [("clusters", JVal.arr [JVal.obj [("category", JVal.num 1), ("urls", JVal.arr [])]])]

/-- A parsed cluster response whose clusters value is not even a list. -/
def rawClusterResp : List (String × JVal) := [("clusters", JVal.str "oops")]

/-- A single valid cluster entry. -/
def goodClusterEntry : JVal :=
  JVal.obj [("category", JVal.str "Accommodations"),
            ("description", JVal.str "Places to stay"),
            ("urls", JVal.arr [JVal.str "https://a.example/1"])]

/-- A parsed cluster response that passes validation. -/
def goodClusterResp : List (String × JVal) :=
  [("clusters", JVal.arr [goodClusterEntry])]

/-- A cluster list for the URL-collection witness: one cluster with two
valid URLs and one string that fails the URL regex. -/
def sampleClusters : List JVal :=
  [JVal.obj [("category", JVal.str "Accommodations"),
             ("urls", JVal.arr [JVal.str "https://a.example/1", JVal.str "notaurl",
                                JVal.str "https://a.example/2"])]]

/-- A preferences payload satisfying every condition the claim lists, with
number_of_travelers equal to 0. -/
def cexPrefsInput : PreferencesInput :=
  { destination := some "Kyoto", start_date := some 100, end_date := some 105,
    budget_min := some 100, budget_max := some 500,
    travel_style := some TravelStyle.cultural,
    preferred_activities := some [ActivityType.dining],
    number_of_travelers := some 0 }

/-- A fully valid preferences payload. -/
def goodPrefsInput : PreferencesInput :=
  { destination := some "Kyoto", start_date := some 100, end_date := some 105,
    budget_min := some 100, budget_max := some 500,
    travel_style := some TravelStyle.cultural,
    preferred_activities := some [ActivityType.dining] }

/-! Shared lemmas about association-list lookup and the check-before-insert
merge. -/

/-- Lookup succeeds exactly when the key occurs among the keys. -/
theorem alookup_isSome_iff {α : Type} (k : String) (l : List (String × α)) :
    (alookup k l).isSome = true ↔ k ∈ l.map Prod.fst := by
  induction l with
  | nil => simp [alookup]
  | cons p rest ih =>
      obtain ⟨k₁, v⟩ := p
      by_cases h : k = k₁ <;> simp [alookup, h, ih]

/-- Lookup over an append tries the left list first. -/
theorem alookup_append {α : Type} (k : String) (l₁ l₂ : List (String × α)) :
    alookup k (l₁ ++ l₂) =
      match alookup k l₁ with
      | some v => some v
      | none => alookup k l₂ := by
  induction l₁ with
  | nil => simp [alookup]
  | cons p rest ih =>
      obtain ⟨k₁, v⟩ := p
      by_cases h : k = k₁ <;> simp [alookup, h, ih]

/-- One merge step never changes the binding of an already present key. -/
theorem alookup_mergeStep {α : Type} (u : String) (v : α) (acc : List (String × α))
    (r : String × α) (h : alookup u acc = some v) :
    alookup u (mergeStep acc r) = some v := by
  unfold mergeStep
  split
  · exact h
  · simp [alookup_append, h]

/-- Unfolding of the merge over a cons. -/
theorem mergeByUrl_cons {α : Type} (acc : List (String × α)) (r : String × α)
    (rs : List (String × α)) :
    mergeByUrl acc (r :: rs) = mergeByUrl (mergeStep acc r) rs := rfl

/-- The whole merge never changes the binding of an already present key. -/
theorem alookup_mergeByUrl {α : Type} (u : String) (v : α) (rs acc : List (String × α))
    (h : alookup u acc = some v) :
    alookup u (mergeByUrl acc rs) = some v := by
  induction rs generalizing acc with
  | nil => exact h
  | cons r rs ih =>
      rw [mergeByUrl_cons]
      exact ih _ (alookup_mergeStep u v acc r h)

/-- Key list of one merge step. -/
theorem keys_mergeStep {α : Type} (acc : List (String × α)) (r : String × α) :
    (mergeStep acc r).map Prod.fst =
      if r.1 ∈ acc.map Prod.fst then acc.map Prod.fst
      else acc.map Prod.fst ++ [r.1] := by
  unfold mergeStep
  by_cases h : r.1 ∈ acc.map Prod.fst
  · rw [if_pos ((alookup_isSome_iff _ _).mpr h), if_pos h]
  · rw [if_neg (fun hc => h ((alookup_isSome_iff _ _).mp hc)), if_neg h]
    simp

/-- One merge step keeps the keys duplicate-free. -/
theorem nodup_keys_mergeStep {α : Type} (acc : List (String × α)) (r : String × α)
    (h : (acc.map Prod.fst).Nodup) : ((mergeStep acc r).map Prod.fst).Nodup := by
  rw [keys_mergeStep]
  split
  · exact h
  · rename_i hmem
    simp [List.nodup_append, h, hmem]

/-- Key set of one merge step. -/
theorem keys_toFinset_mergeStep {α : Type} (acc : List (String × α)) (r : String × α) :
    ((mergeStep acc r).map Prod.fst).toFinset = insert r.1 (acc.map Prod.fst).toFinset := by
  rw [keys_mergeStep]
  split
  · rename_i hmem
    rw [Finset.insert_eq_self.mpr (List.mem_toFinset.mpr hmem)]
  · ext a
    simp
    tauto

/-- The whole merge keeps the keys duplicate-free. -/
theorem nodup_keys_mergeByUrl {α : Type} (rs acc : List (String × α))
    (h : (acc.map Prod.fst).Nodup) : ((mergeByUrl acc rs).map Prod.fst).Nodup := by
  induction rs generalizing acc with
  | nil => exact h
  | cons r rs ih =>
      rw [mergeByUrl_cons]
      exact ih _ (nodup_keys_mergeStep acc r h)

/-- Key set of the whole merge. -/
theorem keys_toFinset_mergeByUrl {α : Type} (rs acc : List (String × α)) :
    ((mergeByUrl acc rs).map Prod.fst).toFinset =
      (acc.map Prod.fst).toFinset ∪ (rs.map Prod.fst).toFinset := by
  induction rs generalizing acc with
  | nil => simp [mergeByUrl]
  | cons r rs ih =>
      rw [mergeByUrl_cons, ih, keys_toFinset_mergeStep]
      ext a
      simp

/-- A merge from the empty mapping has exactly one entry per distinct URL. -/
theorem length_mergeByUrl_nil {α : Type} (rs : List (String × α)) :
    (mergeByUrl [] rs).length = (rs.map Prod.fst).toFinset.card := by
  have hnd := nodup_keys_mergeByUrl rs [] (by simp)
  have hts := keys_toFinset_mergeByUrl rs []
  have h₁ : (mergeByUrl ([] : List (String × α)) rs).length
      = ((mergeByUrl [] rs).map Prod.fst).length := by simp
  rw [h₁, ← List.toFinset_card_of_nodup hnd, hts]
  simp

/-- Merging results whose keys are all already present is a no-op. -/
theorem mergeByUrl_absorb {α : Type} (rs acc : List (String × α))
    (h : ∀ k ∈ rs.map Prod.fst, (alookup k acc).isSome = true) :
    mergeByUrl acc rs = acc := by
  induction rs generalizing acc with
  | nil => rfl
  | cons r rs ih =>
      rw [mergeByUrl_cons]
      have hr : (alookup r.1 acc).isSome = true := h r.1 (by simp)
      have hstep : mergeStep acc r = acc := by unfold mergeStep; rw [if_pos hr]
      rw [hstep]
      exact ih acc (fun k hk => h k (by simp [hk]))

/-- Merging the same result set twice equals merging it once. -/
theorem mergeByUrl_idem {α : Type} (rs : List (String × α)) :
    mergeByUrl (mergeByUrl [] rs) rs = mergeByUrl [] rs := by
  apply mergeByUrl_absorb
  intro k hk
  rw [alookup_isSome_iff, ← List.mem_toFinset, keys_toFinset_mergeByUrl]
  simp at hk ⊢
  exact hk

/-! Shared lemmas about URL collection, deduplication and batching. -/

/-- The dedup fold keeps its accumulator duplicate-free. -/
theorem dedup_fold_nodup (l acc : List String) (h : acc.Nodup) :
    (List.foldl (fun acc x => if x ∈ acc then acc else acc ++ [x]) acc l).Nodup := by
  induction l generalizing acc with
  | nil => exact h
  | cons x xs ih =>
      simp only [List.foldl_cons]
      split
      · exact ih acc h
      · rename_i hx
        exact ih (acc ++ [x]) (by simp [List.nodup_append, h, hx])

/-- The dedup fold grows by at most one entry per input element. -/
theorem dedup_fold_length (l acc : List String) :
    (List.foldl (fun acc x => if x ∈ acc then acc else acc ++ [x]) acc l).length
      ≤ acc.length + l.length := by
  induction l generalizing acc with
  | nil => simp
  | cons x xs ih =>
      simp only [List.foldl_cons]
      split
      · refine le_trans (ih acc) ?_
        simp only [List.length_cons]
        omega
      · have := ih (acc ++ [x])
        simp only [List.length_append, List.length_cons, List.length_singleton,
          List.length_nil] at this ⊢
        omega

/-- Order-preserving deduplication yields a duplicate-free list. -/
theorem dedupKeepFirst_nodup (l : List String) : (dedupKeepFirst l).Nodup :=
  dedup_fold_nodup l [] (by simp)

/-- Order-preserving deduplication never grows the list. -/
theorem dedupKeepFirst_length (l : List String) : (dedupKeepFirst l).length ≤ l.length := by
  have := dedup_fold_length l []
  simpa [dedupKeepFirst] using this

/-- A cluster contributes at most five URLs to the collection. -/
theorem processClusterUrls_le (c : JVal) (sel : List String)
    (h : processClusterUrls c = .ok sel) : sel.length ≤ 5 := by
  cases c with
  | obj f =>
      simp only [processClusterUrls] at h
      cases hv : (alookup "urls" f).getD (JVal.arr []) with
      | arr us =>
          rw [hv] at h
          have h₂ : Except.ok (ε := PyError) ((us.filterMap fun v =>
              match v with
              | JVal.str s => if isValidUrl s then some s else none
              | _ => none).take 5) = Except.ok sel := h
          injection h₂ with h₂
          subst h₂
          rw [List.length_take]
          exact min_le_left 5 _
      | null => rw [hv] at h; injection h with h; subst h; simp
      | bool b => rw [hv] at h; injection h with h; subst h; simp
      | num n => rw [hv] at h; injection h with h; subst h; simp
      | str s => rw [hv] at h; injection h with h; subst h; simp
      | obj g => rw [hv] at h; injection h with h; subst h; simp
  | null => cases h
  | bool b => cases h
  | num n => cases h
  | str s => cases h
  | arr xs => cases h

/-- A duplicate-free list has at most five members inside any list of
length at most five. -/
theorem nodup_filter_mem_le {sel urls : List String} (hnd : urls.Nodup)
    (hsel : sel.length ≤ 5) :
    (urls.filter (fun u => decide (u ∈ sel))).length ≤ 5 := by
  have h₁ : (urls.filter (fun u => decide (u ∈ sel))).Nodup := hnd.filter _
  have h₂ : ∀ x ∈ urls.filter (fun u => decide (u ∈ sel)), x ∈ sel := by
    intro x hx
    have := List.of_mem_filter hx
    simpa using this
  calc (urls.filter (fun u => decide (u ∈ sel))).length
      = (urls.filter (fun u => decide (u ∈ sel))).toFinset.card :=
        (List.toFinset_card_of_nodup h₁).symm
    _ ≤ sel.toFinset.card :=
        Finset.card_le_card (fun x hx => List.mem_toFinset.mpr (h₂ x (List.mem_toFinset.mp hx)))
    _ ≤ sel.length := List.toFinset_card_le sel
    _ ≤ 5 := hsel

/-- Every extraction batch has at most 20 URLs. -/
theorem mkBatches_length_le (l : List String) : ∀ b ∈ mkBatches l, b.length ≤ 20 := by
  match l with
  | [] => intro b hb; simp [mkBatches] at hb
  | x :: xs =>
      intro b hb
      rw [mkBatches] at hb
      rcases List.mem_cons.mp hb with h | h
      · subst h
        rw [List.length_take]
        exact min_le_left 20 _
      · exact mkBatches_length_le ((x :: xs).drop 20) b h
termination_by l.length
decreasing_by
  simp [List.length_drop]
  omega

/-! Claim theorems. -/

/-- C1 counterexample: the routing predicates are not total. On a state
where chosen_cluster is absent, documents is absent and eval is a plain
mapping, route_after_manual_selection raises TypeError,
should_continue_research raises KeyError and route_based_on_evaluation
raises AttributeError; only route_based_on_cluster returns a route. -/
theorem routing_not_total_counterexample :
    route_after_manual_selection stMissing = .error .typeError ∧
    should_continue_research stMissing = .error .keyError ∧
    route_based_on_evaluation stMissing = .error .attributeError ∧
    route_based_on_cluster stMissing = .ok "manual_cluster_selection" :=
  ⟨rfl, rfl, rfl, rfl⟩

/-- C1 (amended): route_based_on_cluster is total and returns one of its
two route names on every state; each of the other three predicates
returns one of its two route names on every state whose field it reads is
present and well-typed (an integer chosen_cluster, a present documents
mapping, an eval object exposing a grade attribute), and raises
otherwise. -/
theorem routing_partial_totality (s : RState) :
    (route_based_on_cluster s = .ok "enrich_docs" ∨
      route_based_on_cluster s = .ok "manual_cluster_selection") ∧
    (∀ c, s.chosen_cluster = some c →
      route_after_manual_selection s = .ok "enrich_docs" ∨
      route_after_manual_selection s = .ok "cluster") ∧
    (∀ docs, s.documents = some docs →
      should_continue_research s = .ok "research" ∨
      should_continue_research s = .ok "generate_report") ∧
    (∀ g gaps, s.evalResult = EvalField.obj g gaps →
      route_based_on_evaluation s = .ok "research" ∨
      route_based_on_evaluation s = .ok "publish") := by
  refine ⟨?_, ?_, ?_, ?_⟩
  · unfold route_based_on_cluster
    cases s.chosen_cluster <;> simp
  · intro c hc
    unfold route_after_manual_selection
    rw [hc]
    by_cases h : c ≥ 0 <;> simp [h]
  · intro docs hd
    unfold should_continue_research
    rw [hd]
    by_cases h : docs.length < 2 <;> simp [h]
  · intro g gaps hg
    unfold route_based_on_evaluation
    rw [hg]
    by_cases h : g = 1 <;> simp [h]

/-- C1 witness: the amended totality applied to a well-typed state. -/
theorem routing_partial_totality_witness :
    (route_after_manual_selection stTyped = .ok "enrich_docs" ∨
      route_after_manual_selection stTyped = .ok "cluster") ∧
    (should_continue_research stTyped = .ok "research" ∨
      should_continue_research stTyped = .ok "generate_report") ∧
    (route_based_on_evaluation stTyped = .ok "research" ∨
      route_based_on_evaluation stTyped = .ok "publish") :=
  ⟨(routing_partial_totality stTyped).2.1 3 rfl,
   (routing_partial_totality stTyped).2.2.1 [] rfl,
   (routing_partial_totality stTyped).2.2.2 2 [] rfl⟩

/-- C2: every eval value the Evaluate node produces is a plain dict, and
route_based_on_evaluation reads grade as an attribute, so for every state
carrying an evaluation result produced by the Evaluate node the predicate
raises AttributeError instead of routing by grade; in particular with a
grade-2 evaluation the merged state does not route to publish but
crashes, as evaluated here on a concrete grade-2 response. -/
theorem evaluate_then_route_raises :
    (∀ (s : RState) (resp : Option JVal),
      route_based_on_evaluation (applyEvaluate s resp) = .error .attributeError) ∧
    (applyEvaluate stReport (some (JVal.obj [("grade", JVal.num 2)]))).evalResult
      = EvalField.dict [("grade", JVal.num 2)] ∧
    nextNode (applyEvaluate stReport (some (JVal.obj [("grade", JVal.num 2)]))) "eval_report"
      = .error .attributeError :=
  ⟨fun _ _ => rfl, rfl, rfl⟩

/-- C3: with an interactive channel and three clusters available, reply 0
returns chosen_cluster -1 and the next route is cluster, and reply 9
re-prompts without returning an update; but reply 2 does not yield
chosen_cluster 1: the selection branch reads company_name as an attribute
of a dict cluster and raises AttributeError, which only the ValueError
handler surrounds, so the node crashes before returning. -/
theorem manual_selection_company_name_crash :
    manualSelectionStep threeClusters "0" = ManualOutcome.update (-1) ∧
    route_after_manual_selection (applyManualUpdate stClusters (-1)) = .ok "cluster" ∧
    manualSelectionStep threeClusters "9" = ManualOutcome.reprompt ∧
    manualSelectionStep threeClusters "2" = ManualOutcome.raise PyError.attributeError :=
  ⟨by decide, rfl, by decide, by decide⟩

/-- C4 counterexample: after a failed clustering the Cluster node returns
chosen_cluster 0 with empty document_clusters, and the routing predicate
on the cluster edge reads that state, so a non-negative chosen_cluster is
read while it is not a valid index (0 is not below the length 0). -/
theorem chosen_cluster_invalid_when_empty :
    (applyClusterRun stPreCluster none).chosen_cluster = some 0 ∧
    (applyClusterRun stPreCluster none).document_clusters = JVal.arr [] ∧
    nextNode (applyClusterRun stPreCluster none) "cluster" = .ok "enrich_docs" ∧
    ¬ (0 : Nat) < ([] : List JVal).length :=
  ⟨rfl, rfl, rfl, by simp⟩

/-- C4 (amended): the chosen_cluster the Cluster node stores is always 0,
which is a valid index into document_clusters exactly when the stored
cluster list is nonempty; after a clustering failure it is 0 with an
empty list. -/
theorem chosen_cluster_valid_iff_nonempty (s : RState)
    (resp : Option (List (String × JVal))) :
    (applyClusterRun s resp).chosen_cluster = some 0 ∧
    (∀ cs, (applyClusterRun s resp).document_clusters = JVal.arr cs → cs ≠ [] →
      (0 : Nat) < cs.length) := by
  refine ⟨rfl, ?_⟩
  intro cs _ hne
  cases cs with
  | nil => exact absurd rfl hne
  | cons c rest => simp

/-- C4 witness: the amended statement applied to a valid cluster parse. -/
theorem chosen_cluster_valid_iff_nonempty_witness :
    (0 : Nat) < [goodClusterEntry].length :=
  (chosen_cluster_valid_iff_nonempty stPreCluster (some goodClusterResp)).2
    [goodClusterEntry] rfl (by simp)

/-- C5: the Research node rebuilds the documents mapping from scratch on
every pass, so its returned update is independent of the previous
documents, and after the replace-merge a URL previously present in
documents is gone: the mapping does not only grow. -/
theorem research_discards_previous_documents :
    (∀ (s₁ s₂ : RState) (results : List (String × DocRecord)),
      (applyResearch s₁ results).documents = (applyResearch s₂ results).documents) ∧
    alookup "https://a.example/x" (stWithDoc.documents.getD []) = some recA ∧
    (applyResearch stWithDoc []).documents = some [] ∧
    alookup "https://a.example/x" ((applyResearch stWithDoc []).documents.getD []) = none :=
  ⟨fun _ _ _ => rfl, rfl, rfl, rfl⟩

/-- C6 counterexample: when the parsed response has a clusters key that
fails structural validation (a numeric category here), the Cluster node
returns the raw invalid clusters value, not the empty list, together with
its diagnostic message. -/
theorem cluster_validation_failure_keeps_raw :
    clusterValidationOk badClusterResp = false ∧
    clusterDocClustersValue (some badClusterResp)
      = JVal.arr [JVal.obj [("category", JVal.num 1), ("urls", JVal.arr [])]] ∧
    clusterDocClustersValue (some badClusterResp) ≠ JVal.arr [] ∧
    clusterMessage (some badClusterResp) = "Error: invalid clustering result." := by
  refine ⟨rfl, rfl, ?_, rfl⟩
  intro hcontra
  rw [show clusterDocClustersValue (some badClusterResp)
      = JVal.arr [JVal.obj [("category", JVal.num 1), ("urls", JVal.arr [])]] from rfl]
    at hcontra
  injection hcontra with h
  simp at h

/-- C6 (amended): on a response with no parseable JSON object the Cluster
node returns an empty cluster list and a parse diagnostic; on a parsed
object without a clusters key it returns the empty list; on a parsed
object with a clusters key it returns that raw value unchanged, and
whenever validation fails it returns a diagnostic message; no path
raises. -/
theorem cluster_malformed_response_behavior (resp : Option (List (String × JVal))) :
    (resp = none → clusterDocClustersValue resp = JVal.arr [] ∧
      clusterMessage resp = "Error: Failed to parse clustering results from the model.") ∧
    (∀ fields, resp = some fields → alookup "clusters" fields = none →
      clusterDocClustersValue resp = JVal.arr []) ∧
    (∀ fields v, resp = some fields → alookup "clusters" fields = some v →
      clusterDocClustersValue resp = v) ∧
    (∀ fields, resp = some fields → clusterValidationOk fields = false →
      clusterMessage resp = "Error: invalid clustering result.") := by
  refine ⟨?_, ?_, ?_, ?_⟩
  · rintro rfl
    exact ⟨rfl, rfl⟩
  · rintro fields rfl hl
    simp [clusterDocClustersValue, hl]
  · rintro fields v rfl hl
    simp [clusterDocClustersValue, hl]
  · rintro fields rfl hv
    simp [clusterMessage, hv]

/-- C6 witness: the amended behavior applied to a response whose clusters
value is a bare string. -/
theorem cluster_malformed_response_behavior_witness :
    clusterDocClustersValue (some rawClusterResp) = JVal.str "oops" ∧
    clusterMessage (some rawClusterResp) = "Error: invalid clustering result." :=
  ⟨(cluster_malformed_response_behavior (some rawClusterResp)).2.2.1 rawClusterResp
      (JVal.str "oops") rfl rfl,
   (cluster_malformed_response_behavior (some rawClusterResp)).2.2.2 rawClusterResp rfl rfl⟩

/-- C7: merging by URL is first-write-wins and idempotent. A merge step on
an already present URL is the identity; the whole merge never rebinds a
present URL; the mappings built by the Research and Ground merges have
exactly one entry per distinct URL of the merged result sets; and merging
the same result set again changes nothing. -/
theorem merge_by_url_first_write_wins :
    (∀ (acc : List (String × DocRecord)) (r : String × DocRecord),
        (alookup r.1 acc).isSome = true → mergeStep acc r = acc) ∧
    (∀ (u : String) (v : DocRecord) (rs acc : List (String × DocRecord)),
        alookup u acc = some v → alookup u (mergeByUrl acc rs) = some v) ∧
    (∀ results : List (String × DocRecord),
        (researchDocuments results).length = (results.map Prod.fst).toFinset.card ∧
        (groundInitialData results).length = (results.map Prod.fst).toFinset.card) ∧
    (∀ rs : List (String × DocRecord), mergeByUrl (mergeByUrl [] rs) rs = mergeByUrl [] rs) := by
  refine ⟨?_, alookup_mergeByUrl, ?_, mergeByUrl_idem⟩
  · intro acc r h
    unfold mergeStep
    rw [if_pos h]
  · intro results
    exact ⟨length_mergeByUrl_nil results, length_mergeByUrl_nil results⟩

/-- C7 witness: no overwrite and no second entry on a duplicate URL. -/
theorem merge_by_url_first_write_wins_witness :
    mergeStep [("https://a.example/x", recA)] ("https://a.example/x", recB)
      = [("https://a.example/x", recA)] ∧
    alookup "https://a.example/x"
      (mergeByUrl [("https://a.example/x", recA)] [("https://a.example/x", recB)])
      = some recA :=
  ⟨merge_by_url_first_write_wins.1 _ _ rfl,
   merge_by_url_first_write_wins.2.1 _ recA _ _ rfl⟩

/-- C8: the URL list collected for extraction has at most 20 URLs, no
duplicates, at most 5 URLs from any single cluster, and every extraction
batch built from it has at most 20 URLs. -/
theorem enrich_url_collection_bounds (clusters : List JVal) (urls : List String)
    (h : collectAndValidateUrls clusters = .ok urls) :
    urls.length ≤ 20 ∧ urls.Nodup ∧
    (∀ c ∈ clusters, ∀ sel, processClusterUrls c = .ok sel →
        (urls.filter (fun u => decide (u ∈ sel))).length ≤ 5) ∧
    (∀ b ∈ mkBatches urls, b.length ≤ 20) := by
  unfold collectAndValidateUrls at h
  cases hc : collectUrls clusters [] with
  | error e => rw [hc] at h; cases h
  | ok l =>
      rw [hc] at h
      have h₂ : Except.ok (ε := PyError) (dedupKeepFirst (l.take 20)) = Except.ok urls := h
      injection h₂ with h₂
      subst h₂
      refine ⟨?_, dedupKeepFirst_nodup _, ?_, mkBatches_length_le _⟩
      · calc (dedupKeepFirst (l.take 20)).length ≤ (l.take 20).length :=
              dedupKeepFirst_length _
          _ ≤ 20 := by rw [List.length_take]; exact min_le_left 20 _
      · intro c _ sel hsel
        exact nodup_filter_mem_le (dedupKeepFirst_nodup _) (processClusterUrls_le c sel hsel)

/-- C8 witness: the bounds applied to a concrete cluster list whose
collection filters out an invalid URL. -/
theorem enrich_url_collection_bounds_witness :
    (["https://a.example/1", "https://a.example/2"] : List String).length ≤ 20 ∧
    (["https://a.example/1", "https://a.example/2"] : List String).Nodup ∧
    (∀ c ∈ sampleClusters, ∀ sel, processClusterUrls c = .ok sel →
        ((["https://a.example/1", "https://a.example/2"] : List String).filter
          (fun u => decide (u ∈ sel))).length ≤ 5) ∧
    (∀ b ∈ mkBatches ["https://a.example/1", "https://a.example/2"], b.length ≤ 20) :=
  enrich_url_collection_bounds sampleClusters _ rfl

/-- C9 counterexample: a payload with start_date strictly before end_date,
non-negative budgets with budget_min at most budget_max and every
required field present is still rejected, because its
number_of_travelers is 0 and the source also validates that field. -/
theorem preferences_validation_counterexample :
    (100 : Int) < 105 ∧ (0 : Rat) ≤ 100 ∧ (0 : Rat) ≤ 500 ∧ (100 : Rat) ≤ 500 ∧
    cexPrefsInput.destination.isSome = true ∧
    exceptOk (validatePreferences cexPrefsInput) = false := by
  refine ⟨by norm_num, by norm_num, by norm_num, by norm_num, rfl, by decide⟩

/-- C9 (amended): with all required fields present, validation succeeds
exactly when start_date is strictly before end_date, both budgets are
non-negative, budget_min is at most budget_max, and number_of_travelers
(defaulting to 1) is at least 1; and no node update carries the
preferences field, so the merge never changes a validated preferences
value. -/
theorem preferences_validation_characterization (p : PreferencesInput)
    (dest : String) (sd ed : Int) (bmin bmax : Rat) (ts : TravelStyle)
    (acts : List ActivityType)
    (h₁ : p.destination = some dest) (h₂ : p.start_date = some sd)
    (h₃ : p.end_date = some ed) (h₄ : p.budget_min = some bmin)
    (h₅ : p.budget_max = some bmax) (h₆ : p.travel_style = some ts)
    (h₇ : p.preferred_activities = some acts) :
    ((∃ prefs, validatePreferences p = .ok prefs) ↔
      (sd < ed ∧ 0 ≤ bmin ∧ 0 ≤ bmax ∧ bmin ≤ bmax ∧
        1 ≤ p.number_of_travelers.getD 1)) ∧
    (∀ (s : RState) (resp : Option (List (String × JVal))) (jr : Option JVal)
        (results enriched : List (String × DocRecord)) (c : Int),
      (applyClusterRun s resp).preferences = s.preferences ∧
      (applyEvaluate s jr).preferences = s.preferences ∧
      (applyResearch s results).preferences = s.preferences ∧
      (applyManualUpdate s c).preferences = s.preferences ∧
      (applyEnrichDocs s enriched).preferences = s.preferences) := by
  constructor
  · constructor
    · rintro ⟨prefs, hok⟩
      simp only [validatePreferences, h₁, h₂, h₃, h₄, h₅, h₆, h₇] at hok
      split_ifs at hok with c₁ c₂ c₃ c₄ c₅
      exact ⟨not_le.mp c₄, not_lt.mp c₁, not_lt.mp c₂, not_lt.mp c₅, not_lt.mp c₃⟩
    · rintro ⟨g₁, g₂, g₃, g₄, g₅⟩
      have hval : validatePreferences p = Except.ok {
          destination := dest
          additional_destinations := p.additional_destinations.getD []
          start_date := sd
          end_date := ed
          budget_min := bmin
          budget_max := bmax
          travel_style := ts
          preferred_activities := acts
          accessibility_requirements := p.accessibility_requirements
          dietary_restrictions := p.dietary_restrictions.getD []
          number_of_travelers := p.number_of_travelers.getD 1
          preferred_languages := p.preferred_languages.getD ["English"] } := by
        simp only [validatePreferences, h₁, h₂, h₃, h₄, h₅, h₆, h₇]
        rw [if_neg (not_lt.mpr g₂), if_neg (not_lt.mpr g₃), if_neg (not_lt.mpr g₅),
          if_neg (not_le.mpr g₁), if_neg (not_lt.mpr g₄)]
      exact ⟨_, hval⟩
  · intro s resp jr results enriched c
    exact ⟨rfl, rfl, rfl, rfl, rfl⟩

/-- C9 witness: the characterization applied to a fully valid payload. -/
theorem preferences_validation_characterization_witness :
    ∃ prefs, validatePreferences goodPrefsInput = .ok prefs :=
  ((preferences_validation_characterization goodPrefsInput "Kyoto" 100 105 100 500
      TravelStyle.cultural [ActivityType.dining] rfl rfl rfl rfl rfl rfl rfl).1).mpr
    ⟨by norm_num, by norm_num, by norm_num, by norm_num, by norm_num [goodPrefsInput]⟩

/-- C10: for every state and every model response, the update returned by
the Cluster node carries chosen_cluster 0, so route_based_on_cluster on
the merged state always returns enrich_docs and the conditional edge out
of the cluster node never reaches manual_cluster_selection. -/
theorem cluster_always_routes_to_enrich (s : RState)
    (resp : Option (List (String × JVal))) :
    (clusterRun resp).chosen_cluster = 0 ∧
    (applyClusterRun s resp).chosen_cluster = some 0 ∧
    route_based_on_cluster (applyClusterRun s resp) = .ok "enrich_docs" ∧
    nextNode (applyClusterRun s resp) "cluster" = .ok "enrich_docs" :=
  ⟨rfl, rfl, rfl, rfl⟩

end TravelPlanner
